import Mathlib

/-!
Shallow embedding of the terraview tile-to-animation pipeline.

Sources embedded here:
* `src/unnamed/part_003` — the job store types (`JobStatus`, `AnimationJob`).
* `src/lib/animationService.ts` — the unbatched pipeline (namespace `Lib`):
  `downloadImage`, `lonLatToTile`, `getDatesInRange`, `createAnimation`.
* `src/unnamed/part_002` — the batched pipeline (namespace `Batched`):
  `downloadImage`, `lonLatToTile`, `getDatesInRange`, `createBatchVideo`,
  `createAnimation` (batch planning and the final-stitch complex filter).
* `src/app/api/animate/request/route.ts` — the job-submission endpoint (`Route.POST`).

Modelling conventions: calendar days are identified with their day index
(days since an epoch), so the JS `Date` arithmetic `currentDate <= end` /
`setDate(getDate()+1)` becomes `≤` / `+1` on `ℕ`; HTTP outcomes are an
explicit inductive (`FetchOutcome`); the file written by a download is a
`TileFile`; JS exceptions are `Except String`; real-number library math
(`Math.log`, `Math.tan`, `Math.floor`) is idealized over `ℝ`.
-/

namespace Terraview

/-- `src/unnamed/part_003`: `type JobStatus = 'processing' | 'complete' | 'failed'`. -/
inductive JobStatus where
  | processing
  | complete
  | failed
  deriving DecidableEq, Repr

/-- `src/unnamed/part_003`: `interface AnimationJob { status; url?; error? }`. -/
structure AnimationJob where
  status : JobStatus
  url : Option String := none
  error : Option String := none
  deriving DecidableEq, Repr

/-- A job status is terminal when it is `complete` or `failed`. -/
def JobStatus.isTerminal : JobStatus → Bool
  | .processing => false
  | .complete => true
  | .failed => true

/-- Days since an epoch; stands for a `YYYY-MM-DD` calendar-day string
(the JS code manipulates `Date` values at UTC midnight, which are in
order-preserving bijection with day indices). -/
abbrev Day := Nat

/-- `getDatesInRange` (identical in `src/lib/animationService.ts` lines 57–67 and
`src/unnamed/part_002` lines 29–39): starting from `start`, while
`currentDate <= end` push the current day and step one day forward.
The JS loop mutates `currentDate`; here it is the structural recursion
on the remaining day count. -/
def getDatesInRange (start «end» : Nat) : List Nat :=
  if h : start ≤ «end» then start :: getDatesInRange (start + 1) «end» else []
termination_by «end» + 1 - start
decreasing_by omega

/-! ### Tile fetching (`downloadImage`) -/

/-- Outcome of `fetch(url, { signal: AbortSignal.timeout(30000) })`: either an
HTTP response with a status code and body bytes, or a thrown transport
error (network failure, DNS error, or the 30 s abort timeout). -/
inductive FetchOutcome where
  | response (status : Nat) (body : List Nat)
  | transportError (msg : String)
  deriving DecidableEq, Repr

/-- `response.ok` in the Fetch API: the status is in the 2xx range. -/
def responseOk (status : Nat) : Bool :=
  200 ≤ status && status < 300

/-- The image file a call to `downloadImage` leaves at `filepath`:
either the fetched body bytes (`fs.writeFile(filepath, buffer)`), or a
synthesized blank tile
(`sharp({create:{width,height,channels,background:black}}).jpeg().toFile`),
recording the created dimensions. -/
inductive TileFile where
  | fetched (body : List Nat)
  | blank (width height channels : Nat)
  deriving DecidableEq, Repr

/-- The `try`-block shared verbatim by both versions of `downloadImage`
(`src/lib/animationService.ts` lines 20–40, `src/unnamed/part_002` lines
43–53): a 2xx response is written to disk as-is; a 404 writes a blank
512×512 3-channel tile and returns; any other status throws
`Failed to download ...`; a transport error or timeout propagates out of
`fetch` as a thrown error. -/
def downloadImageTry (outcome : FetchOutcome) : Except String TileFile :=
  match outcome with
  | .response status body =>
      if responseOk status then .ok (.fetched body)
      else if status = 404 then .ok (.blank 512 512 3)
      else .error ("Failed to download: status " ++ toString status)
  | .transportError msg => .error msg

namespace Lib

/-- `src/lib/animationService.ts` lines 19–45: the `catch` block logs the
error and re-throws it (`throw error; // Re-throw to be caught by the main
try-catch block`), so any non-404 failure escapes `downloadImage` and no
file is written. -/
def downloadImage (outcome : FetchOutcome) : Except String TileFile :=
  match downloadImageTry outcome with
  | .ok file => .ok file
  | .error e => .error e

end Lib

namespace Batched

/-- `src/unnamed/part_002` lines 42–60: the `catch` block swallows every
error (timeout, network, non-2xx status) and writes a blank 512×512
3-channel tile instead, so `downloadImage` always completes with a file. -/
def downloadImage (outcome : FetchOutcome) : TileFile :=
  match downloadImageTry outcome with
  | .ok file => file
  | .error _ => .blank 512 512 3

end Batched

/-! ### Batch planning and the final stitch filter (`src/unnamed/part_002`) -/

namespace Batched

/-- `src/unnamed/part_002` line 10: `const BATCH_GRID_DIMENSION = 16`. -/
def BATCH_GRID_DIMENSION : Nat := 16

/-- Lines 125–126: one axis of
`Array.from({ length: bottomRight - topLeft + 1 }, (_, i) => topLeft + i)` —
the consecutive tile coordinates from `topLeft` to `bottomRight`. -/
def fullTileCoords (topLeft bottomRight : Int) : List Int :=
  (List.range (bottomRight - topLeft + 1).toNat).map (fun (i : Nat) => topLeft + (i : Int))

/-- Lines 128–129: `Math.ceil(fullTileCoords.length / BATCH_GRID_DIMENSION)`
(the number of batch columns resp. rows on one axis). -/
def numBatchesOnAxis (len : Nat) : Nat :=
  (len + BATCH_GRID_DIMENSION - 1) / BATCH_GRID_DIMENSION

/-- Lines 139–142: with `batchStart = idx * BATCH_GRID_DIMENSION`,
`coords.slice(batchStart, batchStart + BATCH_GRID_DIMENSION)`. -/
def batchSlice (coords : List Int) (idx : Nat) : List Int :=
  (coords.drop (idx * BATCH_GRID_DIMENSION)).take BATCH_GRID_DIMENSION

/-- The relative-index shadow of `batchSlice`: positions within the tile
rectangle (0-based offsets from its origin) instead of absolute tile
coordinates, so that `batchSlice (fullTileCoords a b) idx` is the image of
`batchIdxSlice width idx` under `a + ·`. -/
def batchIdxSlice (width idx : Nat) : List Nat :=
  ((List.range width).drop (idx * BATCH_GRID_DIMENSION)).take BATCH_GRID_DIMENSION

/-- Lines 135–150: the row-major traversal order of the batch grid
(`row` is the outer loop, `col` the inner one). -/
def batchOrder (numBatchRows numBatchCols : Nat) : List (Nat × Nat) :=
  (List.range numBatchRows).flatMap (fun row =>
    (List.range numBatchCols).map (fun col => (row, col)))

/-- Lines 153–166: the `finalComplexFilter` array. For each row the code
pushes one input label `[i:v]` per batch (with `i` the running input
index, i.e. `row * numBatchCols + col`) followed by
`hstack=<numBatchCols>[row<row>];`; it then pushes every `[row<row>]`
label and a final `vstack=<numBatchRows>[v]`. The ffmpeg invocation joins
this list with the empty separator. -/
def finalComplexFilter (numBatchRows numBatchCols : Nat) : List String :=
  ((List.range numBatchRows).flatMap (fun row =>
    ((List.range numBatchCols).map (fun col =>
      "[" ++ toString (row * numBatchCols + col) ++ ":v]")) ++
    ["hstack=" ++ toString numBatchCols ++ "[row" ++ toString row ++ "];"])) ++
  ((List.range numBatchRows).map (fun row => "[row" ++ toString row ++ "]")) ++
  ["vstack=" ++ toString numBatchRows ++ "[v]"]

end Batched

/-! ### Frame compositing -/

/-- One entry of the `compositeOperations` array: the tile it reads
(`input: tile_<x>_<y>.jpg` in the current date's directory) and the pixel
offset it is placed at (`left`, `top`). -/
structure CompositeOp where
  tileX : Int
  tileY : Int
  left : Int
  top : Int
  deriving DecidableEq, Repr

/-- A composited mosaic frame: the canvas dimensions handed to
`sharp({ create: { width, height, channels: 3, background: black } })` and
the placed tiles (content and pixel offset). -/
structure Frame where
  width : Nat
  height : Nat
  placements : List (TileFile × Int × Int)
  deriving DecidableEq, Repr

namespace Lib

/-- `src/lib/animationService.ts` line 88: `frameWidth = gridWidth * 512`
with `gridWidth = tileXCoords.length`. -/
def frameWidth (tileXCoords : List Int) : Nat :=
  tileXCoords.length * 512

/-- `src/lib/animationService.ts` line 89: `frameHeight = gridHeight * 512`. -/
def frameHeight (tileYCoords : List Int) : Nat :=
  tileYCoords.length * 512

/-- `src/lib/animationService.ts` lines 116–124: for `y` of `tileYCoords`
(outer) and `x` of `tileXCoords` (inner), push
`{ input: tile_<x>_<y>.jpg, left: (x - tileXCoords[0]) * 512,
top: (y - tileYCoords[0]) * 512 }`. The operations are the same for every
date (the date only selects the temporary directory the inputs are read
from). -/
def compositeOperations (tileXCoords tileYCoords : List Int) : List CompositeOp :=
  tileYCoords.flatMap (fun y => tileXCoords.map (fun x =>
    ⟨x, y, (x - tileXCoords.headI) * 512, (y - tileYCoords.headI) * 512⟩))

end Lib

namespace Batched

/-- `src/unnamed/part_002` line 66 (`createBatchVideo`):
`frameWidth = tileXCoords.length * 512`. -/
def frameWidth (tileXCoords : List Int) : Nat :=
  tileXCoords.length * 512

/-- `src/unnamed/part_002` line 67: `frameHeight = tileYCoords.length * 512`. -/
def frameHeight (tileYCoords : List Int) : Nat :=
  tileYCoords.length * 512

/-- `src/unnamed/part_002` lines 83–91 (`createBatchVideo`): for `y` of the
batch's `tileYCoords` (outer) and `x` of its `tileXCoords` (inner), push
`{ input: tile_<x>_<y>.jpg, left: (x - tileXCoords[0]) * 512,
top: (y - tileYCoords[0]) * 512 }`. -/
def compositeOperations (tileXCoords tileYCoords : List Int) : List CompositeOp :=
  tileYCoords.flatMap (fun y => tileXCoords.map (fun x =>
    ⟨x, y, (x - tileXCoords.headI) * 512, (y - tileYCoords.headI) * 512⟩))

/-- `src/unnamed/part_002` lines 69–96, one (batch, date) iteration of
`createBatchVideo`: every tile of the batch is downloaded (each settling
as fetched bytes or a blank tile, never rejecting — lines 42–60 and 81),
then the frame is composited with the canvas size from lines 66–67 and
the offsets from lines 83–91. `fetch` gives each tile request's network
outcome. -/
def compositeFrame (tileXCoords tileYCoords : List Int)
    (fetch : Int × Int → FetchOutcome) : Frame :=
  { width := frameWidth tileXCoords
    height := frameHeight tileYCoords
    placements := (compositeOperations tileXCoords tileYCoords).map (fun op =>
      (downloadImage (fetch (op.tileX, op.tileY)), op.left, op.top)) }

end Batched

/-! ### Job submission route (`src/app/api/animate/request/route.ts`) -/

namespace Route

/-- The JSON body of a submission request; `none` stands for a missing (or
JS-falsy) field. Dates are day indices (see `Day`); the bounding-box
payload `B` is opaque to the route, which only checks its presence. -/
structure RequestBody (B : Type) where
  boundingBox : Option B
  startDate : Option Nat
  endDate : Option Nat

/-- The route's synchronous HTTP response. -/
inductive PostResponse where
  | okJob (jobId : String)
  | badRequest (error : String)
  deriving DecidableEq, Repr

/-- `src/app/api/animate/request/route.ts` lines 6–30: reject with 400 only
when a field is missing; otherwise write `{status: 'processing'}` for a
fresh job id, start `createAnimation` without awaiting it
(fire-and-forget), and immediately return the job id. The second
component lists the `jobs.set` writes the route itself performs. -/
def POST {B : Type} (body : RequestBody B) (jobId : String) :
    PostResponse × List AnimationJob :=
  match body.boundingBox, body.startDate, body.endDate with
  | some _, some _, some _ => (.okJob jobId, [{ status := .processing }])
  | _, _, _ => (.badRequest "Missing required parameters", [])

end Route

/-! ### Job lifecycle (`createAnimation`, `src/unnamed/part_002` lines 114–198;
`src/lib/animationService.ts` lines 69–173 has the identical
`try`/`catch`/`finally` shape around the unbatched pipeline) -/

/-- An observable effect of `createAnimation` other than its return value:
a `jobs.set(jobId, ...)` write or the `fs.rm` of the job's temporary
directory tree. -/
inductive Ev where
  | setJob (job : AnimationJob)
  | rmDir (jobId : String)
  deriving DecidableEq, Repr

/-- Projection selecting the `jobs.set` events. -/
def Ev.setJob? : Ev → Option AnimationJob
  | .setJob j => some j
  | _ => none

/-- The sequence of `jobs.set` writes within an event trace. -/
def jobWrites (evs : List Ev) : List AnimationJob :=
  evs.filterMap Ev.setJob?

namespace Batched

/-- Which effectful steps of one `createAnimation` run throw.
`batchVideoFailsAt` names the (row, col) whose `createBatchVideo` call
rejects (a sharp compositing error or a non-zero ffmpeg exit — tile
downloads inside it never reject, lines 42–60); `stitchFails` makes the
final-stitch ffmpeg invocation reject; `rmFails` makes the cleanup
`fs.rm` throw. -/
structure Env where
  mkdirFails : Bool := false
  batchVideoFailsAt : Option (Nat × Nat) := none
  stitchFails : Bool := false
  rmFails : Bool := false

/-- The `try` block of `createAnimation` (lines 116–185): `mkdir`, batch
planning, the row-major loop of `createBatchVideo` calls, the final
stitch, then the success URL `/animations/<jobId>.gif`. The first step
that throws aborts the block with its error. -/
def tryBlock (jobId : String) (numBatchRows numBatchCols : Nat) (env : Env) :
    Except String String :=
  if env.mkdirFails then .error "EACCES: permission denied, mkdir"
  else if (batchOrder numBatchRows numBatchCols).any
      (fun rc => env.batchVideoFailsAt = some rc) then
    .error "ffmpeg exited with code 1"
  else if env.stitchFails then .error "ffmpeg exited with code 1: Invalid argument"
  else .ok ("/animations/" ++ jobId ++ ".gif")

/-- JS `finally` semantics: the `finally` block always runs; if it throws,
its error replaces the current result, otherwise the prior result
stands. -/
def runFinally {α : Type} (result : Except String α) (finalizer : Except String Unit) :
    Except String α :=
  match finalizer with
  | .error e => .error e
  | .ok _ => result

/-- Lines 190–197: the `finally` block runs
`fs.rm(jobDir, { recursive: true, force: true })` inside its own `try`,
whose `catch` only logs — so a cleanup failure never escapes, and the
`rmDir` call is made in every run. -/
def cleanupStep (jobId : String) (rmFails : Bool) : Except String Unit × List Ev :=
  match (if rmFails then (Except.error "EACCES: permission denied, rm" : Except String Unit)
         else Except.ok ()) with
  | .error _cleanupError => (.ok (), [.rmDir jobId])
  | .ok _ => (.ok (), [.rmDir jobId])

/-- `createAnimation` (lines 114–198): run the `try` block; on success write
`{status: 'complete', url}` (line 184), on any thrown error the `catch`
writes `{status: 'failed', error: message}` (line 189); the `finally`
performs cleanup. The first component is the function's own outcome — an
uncaught exception would surface there as `.error`. -/
def createAnimation (jobId : String) (numBatchRows numBatchCols : Nat) (env : Env) :
    Except String Unit × List Ev :=
  let tryCatch : Except String Unit × List Ev :=
    match tryBlock jobId numBatchRows numBatchCols env with
    | .ok url => (.ok (), [.setJob { status := .complete, url := some url }])
    | .error e => (.ok (), [.setJob { status := .failed, error := some e }])
  let fin := cleanupStep jobId env.rmFails
  (runFinally tryCatch.1 fin.1, tryCatch.2 ++ fin.2)

end Batched

/-- The complete sequence of `jobs.set` writes for one accepted request:
the route's synchronous `processing` write followed by the writes of the
fire-and-forget `createAnimation` run. -/
def requestJobWrites {B : Type} (body : Route.RequestBody B) (jobId : String)
    (numBatchRows numBatchCols : Nat) (env : Batched.Env) : List AnimationJob :=
  (Route.POST body jobId).2 ++
    jobWrites (Batched.createAnimation jobId numBatchRows numBatchCols env).2

/-! ### Tile coordinate mapping (`lonLatToTile`, identical in
`src/lib/animationService.ts` lines 48–54 and `src/unnamed/part_002`
lines 20–26) -/

/-- `lonLatToTile`: with `n = 2^zoom` and `latRad = lat * π / 180`,
`x = Math.floor(n * ((lon + 180) / 360))` and
`y = Math.floor(n * (1 - (Math.log(Math.tan(latRad) + 1 / Math.cos(latRad)) / Math.PI)) / 2)`.
The JS double-precision arithmetic is idealized over `ℝ`. -/
noncomputable def lonLatToTile (lon lat : ℝ) (zoom : ℕ) : ℤ × ℤ :=
  let n : ℝ := 2 ^ zoom
  let latRad : ℝ := lat * Real.pi / 180
  (⌊n * ((lon + 180) / 360)⌋,
   ⌊n * (1 - (Real.log (Real.tan latRad + 1 / Real.cos latRad) / Real.pi)) / 2⌋)

/-! ## Helper lemmas -/

theorem getDatesInRange_eq_range' (s e : Nat) :
    getDatesInRange s e = List.range' s (e + 1 - s) := by
  rw [getDatesInRange]
  split
  · rename_i h
    have h1 : e + 1 - s = (e + 1 - (s + 1)) + 1 := by omega
    rw [getDatesInRange_eq_range' (s + 1) e, h1, List.range'_succ]
  · rename_i h
    have h1 : e + 1 - s = 0 := by omega
    rw [h1]
    rfl
termination_by e + 1 - s
decreasing_by omega

theorem range'_take (m : Nat) : ∀ s n : Nat, (List.range' s n).take m = List.range' s (min m n) := by
  induction m with
  | zero => intro s n; simp
  | succ m ih =>
    intro s n
    cases n with
    | zero => simp
    | succ n =>
      rw [List.range'_succ, List.take_succ_cons, ih, Nat.succ_min_succ, List.range'_succ]

theorem range'_drop (m : Nat) : ∀ s n : Nat, (List.range' s n).drop m = List.range' (s + m) (n - m) := by
  induction m with
  | zero => intro s n; simp
  | succ m ih =>
    intro s n
    cases n with
    | zero => simp
    | succ n =>
      rw [List.range'_succ, List.drop_succ_cons, ih]
      congr 1 <;> omega

theorem range_drop (m n : Nat) : (List.range n).drop m = List.range' m (n - m) := by
  rw [List.range_eq_range', range'_drop]
  simp

theorem batchIdxSlice_eq (w idx : Nat) :
    Batched.batchIdxSlice w idx = List.range' (idx * 16) (min 16 (w - idx * 16)) := by
  rw [Batched.batchIdxSlice, Batched.BATCH_GRID_DIMENSION, range_drop, range'_take]

theorem mem_batchIdxSlice {w idx x : Nat} :
    x ∈ Batched.batchIdxSlice w idx ↔ idx * 16 ≤ x ∧ x < idx * 16 + 16 ∧ x < w := by
  rw [batchIdxSlice_eq, List.mem_range'_1]
  omega

theorem batchOrder_succ (r cols : Nat) :
    Batched.batchOrder (r + 1) cols
      = Batched.batchOrder r cols ++ (List.range cols).map (fun col => (r, col)) := by
  unfold Batched.batchOrder
  rw [List.range_succ, List.flatMap_append]
  simp

theorem batchOrder_eq_map (rows cols : Nat) (hc : 0 < cols) :
    Batched.batchOrder rows cols
      = (List.range (rows * cols)).map (fun i => (i / cols, i % cols)) := by
  induction rows with
  | zero => simp [Batched.batchOrder]
  | succ r ih =>
    have hsplit : (r + 1) * cols = r * cols + cols := by ring
    rw [batchOrder_succ, ih, hsplit, List.range_add, List.map_append, List.map_map]
    congr 1
    apply List.map_congr_left
    intro col hcol
    rw [List.mem_range] at hcol
    have hdiv : (r * cols + col) / cols = r := by
      rw [Nat.add_comm, Nat.mul_comm, Nat.add_mul_div_left _ _ hc, Nat.div_eq_of_lt hcol,
        Nat.zero_add]
    have hmod : (r * cols + col) % cols = col := by
      rw [Nat.add_comm, Nat.mul_comm, Nat.add_mul_mod_self_left, Nat.mod_eq_of_lt hcol]
    simp [hdiv, hmod]

/-! ## Claim theorems -/

/-- C6: for every pair of calendar dates with start ≤ end, `getDatesInRange`
returns a strictly increasing sequence of days, inclusive of both
endpoints, with no gaps and no duplicates, whose length equals the
inclusive day count, and a singleton sequence when start = end. -/
theorem getDatesInRange_inclusive_strictly_increasing (s e : Nat) (hse : s ≤ e) :
    (getDatesInRange s e).length = e - s + 1 ∧
    List.Pairwise (· < ·) (getDatesInRange s e) ∧
    (getDatesInRange s e).head? = some s ∧
    (getDatesInRange s e).getLast? = some e ∧
    (∀ k, k ∈ getDatesInRange s e ↔ s ≤ k ∧ k ≤ e) ∧
    (s = e → getDatesInRange s e = [s]) := by
  have hn : e + 1 - s = (e - s) + 1 := by omega
  rw [getDatesInRange_eq_range', hn]
  refine ⟨by simp, List.pairwise_lt_range' .., ?_, ?_, ?_, ?_⟩
  · rw [List.range'_succ]
    rfl
  · rw [List.range'_concat, List.getLast?_concat]
    congr 1
    omega
  · intro k
    rw [List.mem_range'_1]
    omega
  · intro heq
    subst heq
    have h0 : s - s = 0 := by omega
    rw [h0, List.range'_one]

/-- Witness for C6 at the concrete range from day 3 to day 5. -/
theorem getDatesInRange_inclusive_strictly_increasing_witness :
    (getDatesInRange 3 5).length = 5 - 3 + 1 ∧ (getDatesInRange 3 5).head? = some 3 :=
  ⟨(getDatesInRange_inclusive_strictly_increasing 3 5 (by decide)).1,
   (getDatesInRange_inclusive_strictly_increasing 3 5 (by decide)).2.2.1⟩

theorem batchSlice_fullTileCoords (tl br : Int) (c : Nat) :
    Batched.batchSlice (Batched.fullTileCoords tl br) c
      = (Batched.batchIdxSlice ((br - tl + 1).toNat) c).map (fun (k : Nat) => tl + (k : Int)) := by
  rw [Batched.batchSlice, Batched.batchIdxSlice, Batched.fullTileCoords,
    ← List.map_drop, ← List.map_take]

theorem batchOrder_length (r c : Nat) : (Batched.batchOrder r c).length = r * c := by
  induction r with
  | zero => simp [Batched.batchOrder]
  | succ n ih =>
    rw [batchOrder_succ]
    simp [ih, Nat.succ_mul]

/-- C4: for every tile rectangle of width `w` and height `h` (in tiles) and
the fixed maximum batch dimension 16, the planner produces exactly
⌈w/16⌉ × ⌈h/16⌉ batches traversed in row-major order; batch column `c`
covers the relative tile-x range [c*16, min (c*16+16) w) (and rows
likewise by symmetry of the construction); the per-axis slices are
pairwise disjoint, at most 16 tiles long, and cover the axis exactly;
absolute batch coordinates are the translated relative indices; and a
40×40 rectangle yields a 3×3 grid. -/
theorem batchPlanner_partitions (w h : Nat) :
    (Batched.batchOrder (Batched.numBatchesOnAxis h) (Batched.numBatchesOnAxis w)).length
      = Batched.numBatchesOnAxis h * Batched.numBatchesOnAxis w ∧
    (0 < w → Batched.batchOrder (Batched.numBatchesOnAxis h) (Batched.numBatchesOnAxis w)
      = (List.range (Batched.numBatchesOnAxis h * Batched.numBatchesOnAxis w)).map
          (fun i => (i / Batched.numBatchesOnAxis w, i % Batched.numBatchesOnAxis w))) ∧
    (w ≤ 16 * Batched.numBatchesOnAxis w ∧ ∀ k, w ≤ 16 * k → Batched.numBatchesOnAxis w ≤ k) ∧
    (∀ c, Batched.batchIdxSlice w c = List.range' (c * 16) (min 16 (w - c * 16))) ∧
    (∀ c, (Batched.batchIdxSlice w c).length ≤ 16) ∧
    (∀ c₁ c₂ x, x ∈ Batched.batchIdxSlice w c₁ → x ∈ Batched.batchIdxSlice w c₂ → c₁ = c₂) ∧
    (∀ x, x < w → x ∈ Batched.batchIdxSlice w (x / 16) ∧ x / 16 < Batched.numBatchesOnAxis w) ∧
    (∀ c x, x ∈ Batched.batchIdxSlice w c → x < w ∧ c * 16 ≤ x ∧ x < c * 16 + 16) ∧
    (∀ tl br c, Batched.batchSlice (Batched.fullTileCoords tl br) c
        = (Batched.batchIdxSlice ((br - tl + 1).toNat) c).map (fun (k : Nat) => tl + (k : Int))) ∧
    Batched.numBatchesOnAxis 40 = 3 := by
  refine ⟨batchOrder_length .., ?_, ?_, fun c => batchIdxSlice_eq w c, ?_, ?_, ?_, ?_, ?_, by decide⟩
  · intro hw
    have hcols : 0 < Batched.numBatchesOnAxis w := by
      simp only [Batched.numBatchesOnAxis, Batched.BATCH_GRID_DIMENSION]
      omega
    exact batchOrder_eq_map _ _ hcols
  · constructor
    · simp only [Batched.numBatchesOnAxis, Batched.BATCH_GRID_DIMENSION]
      omega
    · intro k hk
      simp only [Batched.numBatchesOnAxis, Batched.BATCH_GRID_DIMENSION]
      omega
  · intro c
    rw [batchIdxSlice_eq]
    simp
  · intro c₁ c₂ x h₁ h₂
    rw [mem_batchIdxSlice] at h₁ h₂
    omega
  · intro x hx
    constructor
    · rw [mem_batchIdxSlice]
      omega
    · simp only [Batched.numBatchesOnAxis, Batched.BATCH_GRID_DIMENSION]
      omega
  · intro c x hx
    rw [mem_batchIdxSlice] at hx
    omega
  · exact batchSlice_fullTileCoords

/-- Witness for C4 at the 40×40 rectangle of the spec's example. -/
theorem batchPlanner_partitions_witness :
    Batched.numBatchesOnAxis 40 = 3 ∧
    (Batched.batchIdxSlice 40 2).length ≤ 16 ∧
    20 ∈ Batched.batchIdxSlice 40 1 := by
  obtain ⟨-, -, -, -, h5, -, h7, -, -, h10⟩ := batchPlanner_partitions 40 40
  exact ⟨h10, h5 2, (h7 20 (by decide)).1⟩

/-- C7 counterexample: for the inverted range (start = day 5, end = day 3)
the enumeration does not fail with any error — it returns the empty
sequence — and the submission endpoint does not reject the request: it
answers with the job id and records the job as `processing`, so nothing
is surfaced synchronously. -/
theorem invertedRange_not_rejected :
    getDatesInRange 5 3 = [] ∧
    (Route.POST (B := Unit) ⟨some (), some 5, some 3⟩ "job-1").1
      = Route.PostResponse.okJob "job-1" ∧
    (Route.POST (B := Unit) ⟨some (), some 5, some 3⟩ "job-1").2
      = [{ status := JobStatus.processing }] := by
  refine ⟨?_, rfl, rfl⟩
  rw [getDatesInRange]
  simp

/-- C7 amended: for every inverted range (end before start),
`getDatesInRange` returns the empty sequence without raising, and the
submission endpoint — which validates only the presence of its
parameters — accepts the request, writes `processing`, and returns the
job id; the inversion is never rejected before pipeline work begins. -/
theorem invertedRange_empty_and_accepted {B : Type} (payload : B) (jobId : String)
    (s e : Nat) (hlt : e < s) :
    getDatesInRange s e = [] ∧
    (Route.POST ⟨some payload, some s, some e⟩ jobId).1 = Route.PostResponse.okJob jobId ∧
    (Route.POST ⟨some payload, some s, some e⟩ jobId).2
      = [{ status := JobStatus.processing }] := by
  refine ⟨?_, rfl, rfl⟩
  rw [getDatesInRange]
  simp [show ¬ s ≤ e by omega]

/-- Witness for the amended C7 at the concrete inverted range (5, 3). -/
theorem invertedRange_empty_and_accepted_witness :
    getDatesInRange 5 3 = [] ∧
    (Route.POST ⟨some (), some 5, some 3⟩ "job-2").1 = Route.PostResponse.okJob "job-2" ∧
    (Route.POST ⟨some (), some 5, some 3⟩ "job-2").2
      = [{ status := JobStatus.processing }] :=
  invertedRange_empty_and_accepted () "job-2" 5 3 (by decide)

/-- C9 counterexample: with a single batch (a 1×1 grid) the final stitch is
not a pass-through of the batch clip — the code still builds and applies
a filter chain containing a one-input `hstack` and a one-input `vstack`
stage. -/
theorem singleBatch_filter_still_stacks :
    Batched.finalComplexFilter 1 1 = ["[0:v]", "hstack=1[row0];", "[row0]", "vstack=1[v]"] ∧
    "hstack=1[row0];" ∈ Batched.finalComplexFilter 1 1 := by
  refine ⟨by decide, ?_⟩
  rw [show Batched.finalComplexFilter 1 1
    = ["[0:v]", "hstack=1[row0];", "[row0]", "vstack=1[v]"] by decide]
  decide

/-- C9 amended: the final stitch never special-cases a single batch — for
every grid with at least one row it applies the per-row
`hstack=<numBatchCols>` stage (already for row 0) and the final
`vstack=<numBatchRows>` stage, so a 1×1 grid is run through one-input
stacking filters (a re-encode) rather than passed through. -/
theorem finalComplexFilter_always_stacks (rows cols : Nat) (hr : 1 ≤ rows) :
    ("hstack=" ++ toString cols ++ "[row" ++ toString (0 : Nat) ++ "];")
      ∈ Batched.finalComplexFilter rows cols ∧
    ("vstack=" ++ toString rows ++ "[v]") ∈ Batched.finalComplexFilter rows cols := by
  unfold Batched.finalComplexFilter
  constructor
  · apply List.mem_append_left
    apply List.mem_append_left
    apply List.mem_flatMap.2
    refine ⟨0, List.mem_range.2 (by omega), ?_⟩
    exact List.mem_append_right _ (List.mem_singleton.2 rfl)
  · apply List.mem_append_right
    exact List.mem_singleton.2 rfl

/-- Witness for the amended C9 at the single-batch grid. -/
theorem finalComplexFilter_always_stacks_witness :
    ("hstack=" ++ toString (1 : Nat) ++ "[row" ++ toString (0 : Nat) ++ "];")
      ∈ Batched.finalComplexFilter 1 1 ∧
    ("vstack=" ++ toString (1 : Nat) ++ "[v]") ∈ Batched.finalComplexFilter 1 1 :=
  finalComplexFilter_always_stacks 1 1 (by decide)

/-- C1 (failing input): `downloadImage` in `src/lib/animationService.ts`
degrades only a 404 to a blank tile; on an HTTP 500 response or a
transport error/timeout it re-throws and leaves no image file at the
target path — even though its caller's comment says failed downloads
"will be treated as blank tiles". The batched pipeline's `downloadImage`
(`src/unnamed/part_002`) completes with a blank 512×512 3-channel tile on
those same inputs, as the spec requires. -/
theorem downloadImage_lib_rethrows_on_non404 :
    Lib.downloadImage (.response 500 []) = .error "Failed to download: status 500" ∧
    Lib.downloadImage (.transportError "fetch failed: timeout")
      = .error "fetch failed: timeout" ∧
    Lib.downloadImage (.response 404 []) = .ok (.blank 512 512 3) ∧
    Batched.downloadImage (.response 500 []) = .blank 512 512 3 ∧
    Batched.downloadImage (.transportError "fetch failed: timeout") = .blank 512 512 3 ∧
    Batched.downloadImage (.response 404 []) = .blank 512 512 3 ∧
    Batched.downloadImage (.response 200 [7]) = .fetched [7] := by
  exact ⟨rfl, rfl, rfl, by decide, rfl, by decide, by decide⟩

theorem tryBlock_error_nonempty (jobId : String) (rows cols : Nat) (env : Batched.Env) :
    ∀ e, Batched.tryBlock jobId rows cols env = .error e → e ≠ "" := by
  intro e he
  unfold Batched.tryBlock at he
  split at he
  · cases he
    decide
  · split at he
    · cases he
      decide
    · split at he
      · cases he
        decide
      · exact Except.noConfusion he

/-- C2: for every pattern of stage failures, `createAnimation` returns
normally — no exception escapes it, even when the cleanup `rm` itself
fails — the cleanup of the job's temporary directory is invoked in every
run as the final action, and whenever the pipeline `try` block throws,
the job is recorded `failed` with the thrown message (which is non-empty)
as its only write; on success the only write is `complete` with the
artifact URL. -/
theorem createAnimation_catches_and_cleans (jobId : String) (rows cols : Nat)
    (env : Batched.Env) :
    (Batched.createAnimation jobId rows cols env).1 = Except.ok () ∧
    (Batched.createAnimation jobId rows cols env).2.getLast? = some (Ev.rmDir jobId) ∧
    (∀ e, Batched.tryBlock jobId rows cols env = .error e →
      jobWrites (Batched.createAnimation jobId rows cols env).2
        = [{ status := JobStatus.failed, error := some e }] ∧ e ≠ "") ∧
    (∀ url, Batched.tryBlock jobId rows cols env = .ok url →
      jobWrites (Batched.createAnimation jobId rows cols env).2
        = [{ status := JobStatus.complete, url := some url }]) := by
  unfold Batched.createAnimation Batched.cleanupStep Batched.runFinally
  cases htb : Batched.tryBlock jobId rows cols env with
  | ok url =>
    cases hrm : env.rmFails <;>
      simp [jobWrites, Ev.setJob?, htb]
  | error e =>
    cases hrm : env.rmFails <;>
      simp [jobWrites, Ev.setJob?, htb] <;>
      exact tryBlock_error_nonempty jobId rows cols env e htb

/-- Witness for C2: a run whose final stitch fails and whose cleanup `rm`
also fails still returns normally and records `failed`. -/
theorem createAnimation_catches_and_cleans_witness :
    (Batched.createAnimation "job-3" 1 1 { stitchFails := true, rmFails := true }).1
      = Except.ok () ∧
    jobWrites (Batched.createAnimation "job-3" 1 1 { stitchFails := true, rmFails := true }).2
      = [{ status := JobStatus.failed,
           error := some "ffmpeg exited with code 1: Invalid argument" }] := by
  obtain ⟨h1, -, h3, -⟩ :=
    createAnimation_catches_and_cleans "job-3" 1 1 { stitchFails := true, rmFails := true }
  exact ⟨h1, (h3 _ rfl).1⟩

/-- C3: for every accepted request, the job receives the `processing` write
at creation and exactly one further write, which is terminal (`complete`
with a URL on success, `failed` with an error message otherwise); the
terminal write is the last — no execution writes a job twice after
creation or transitions it out of a terminal state. -/
theorem job_status_single_terminal_transition {B : Type} (payload : B) (sd ed : Nat)
    (jobId : String) (rows cols : Nat) (env : Batched.Env) :
    (requestJobWrites ⟨some payload, some sd, some ed⟩ jobId rows cols env).head?
      = some { status := JobStatus.processing } ∧
    (requestJobWrites ⟨some payload, some sd, some ed⟩ jobId rows cols env).length = 2 ∧
    (requestJobWrites ⟨some payload, some sd, some ed⟩ jobId rows cols env).countP
      (fun j => j.status.isTerminal) = 1 ∧
    ((requestJobWrites ⟨some payload, some sd, some ed⟩ jobId rows cols env).getLast?.map
      (fun j => j.status.isTerminal)) = some true ∧
    (requestJobWrites ⟨some payload, some sd, some ed⟩ jobId rows cols env).dropLast.all
      (fun j => !j.status.isTerminal) = true ∧
    (∀ url, Batched.tryBlock jobId rows cols env = .ok url →
      requestJobWrites ⟨some payload, some sd, some ed⟩ jobId rows cols env
        = [{ status := JobStatus.processing },
           { status := JobStatus.complete, url := some url }]) ∧
    (∀ e, Batched.tryBlock jobId rows cols env = .error e →
      requestJobWrites ⟨some payload, some sd, some ed⟩ jobId rows cols env
        = [{ status := JobStatus.processing },
           { status := JobStatus.failed, error := some e }]) := by
  unfold requestJobWrites Route.POST Batched.createAnimation Batched.cleanupStep
  cases htb : Batched.tryBlock jobId rows cols env with
  | ok url =>
    cases hrm : env.rmFails <;>
      simp [jobWrites, Ev.setJob?, JobStatus.isTerminal, List.countP_cons]
  | error e =>
    cases hrm : env.rmFails <;>
      simp [jobWrites, Ev.setJob?, JobStatus.isTerminal, List.countP_cons]

/-- Witness for C3 with a concrete request whose batch encode fails. -/
theorem job_status_single_terminal_transition_witness :
    (requestJobWrites ⟨some (), some 3, some 5⟩ "job-4" 1 1
        { batchVideoFailsAt := some (0, 0) }).length = 2 ∧
    requestJobWrites ⟨some (), some 3, some 5⟩ "job-4" 1 1 { batchVideoFailsAt := some (0, 0) }
      = [{ status := JobStatus.processing },
         { status := JobStatus.failed, error := some "ffmpeg exited with code 1" }] := by
  obtain ⟨-, h2, -, -, -, -, h7⟩ :=
    job_status_single_terminal_transition () 3 5 "job-4" 1 1 { batchVideoFailsAt := some (0, 0) }
  exact ⟨h2, h7 _ rfl⟩

/-- C8: for every batch (and for the full grid of the unbatched pipeline)
the composited frame's canvas is exactly (#tileXCoords·512) ×
(#tileYCoords·512); every composite operation places tile (x, y) at pixel
offset ((x − xs[0])·512, (y − ys[0])·512); the placement offsets do not
depend on which tile fetches degraded to blank placeholder tiles; and for
the slices produced by the batch planner the anchor xs[0] is the batch's
minimal tile coordinate. -/
theorem compositeFrame_dims_and_offsets (xs ys : List Int)
    (fetch fetch2 : Int × Int → FetchOutcome) :
    (Batched.compositeFrame xs ys fetch).width = xs.length * 512 ∧
    (Batched.compositeFrame xs ys fetch).height = ys.length * 512 ∧
    Lib.frameWidth xs = xs.length * 512 ∧
    Lib.frameHeight ys = ys.length * 512 ∧
    (∀ op ∈ Batched.compositeOperations xs ys,
      op.left = (op.tileX - xs.headI) * 512 ∧ op.top = (op.tileY - ys.headI) * 512) ∧
    (∀ op ∈ Lib.compositeOperations xs ys,
      op.left = (op.tileX - xs.headI) * 512 ∧ op.top = (op.tileY - ys.headI) * 512) ∧
    (Batched.compositeFrame xs ys fetch).placements.map (fun p => p.2)
      = (Batched.compositeFrame xs ys fetch2).placements.map (fun p => p.2) ∧
    (∀ tl br c x, x ∈ Batched.batchSlice (Batched.fullTileCoords tl br) c →
      (Batched.batchSlice (Batched.fullTileCoords tl br) c).headI ≤ x) := by
  refine ⟨rfl, rfl, rfl, rfl, ?_, ?_, ?_, ?_⟩
  · intro op hop
    simp only [Batched.compositeOperations, List.mem_flatMap, List.mem_map] at hop
    obtain ⟨y, hy, x, hx, rfl⟩ := hop
    exact ⟨rfl, rfl⟩
  · intro op hop
    simp only [Lib.compositeOperations, List.mem_flatMap, List.mem_map] at hop
    obtain ⟨y, hy, x, hx, rfl⟩ := hop
    exact ⟨rfl, rfl⟩
  · simp [Batched.compositeFrame, List.map_map, Function.comp]
  · intro tl br c x hx
    rw [batchSlice_fullTileCoords, batchIdxSlice_eq] at hx ⊢
    obtain ⟨k, hk, rfl⟩ := List.mem_map.1 hx
    rw [List.mem_range'_1] at hk
    cases hlen : min 16 ((br - tl + 1).toNat - c * 16) with
    | zero =>
      rw [hlen] at hk
      omega
    | succ n =>
      rw [List.range'_succ, List.map_cons, List.headI_cons]
      rw [hlen] at hk
      omega

/-- Witness for C8 on the 2×1 batch at x-tiles [5,6], y-tile [9], with a
fetch oracle that 404s everywhere versus one that succeeds everywhere. -/
theorem compositeFrame_dims_and_offsets_witness :
    (Batched.compositeFrame [5, 6] [9] (fun _ => .response 404 [])).width = 2 * 512 ∧
    (Batched.compositeFrame [5, 6] [9] (fun _ => .response 404 [])).placements.map
        (fun p => p.2)
      = (Batched.compositeFrame [5, 6] [9] (fun _ => .response 200 [1])).placements.map
        (fun p => p.2) := by
  obtain ⟨h1, -, -, -, -, -, h7, -⟩ :=
    compositeFrame_dims_and_offsets [5, 6] [9]
      (fun _ => .response 404 []) (fun _ => .response 200 [1])
  exact ⟨h1.trans (by decide), h7⟩

/-- C10: whenever the covering tile rectangle fits within a single 16×16
batch, the batched pipeline plans exactly one batch (a 1×1 grid traversed
as [(0,0)]) whose tile coordinate lists equal the unbatched pipeline's
full lists, and both pipelines produce — for every date — frames of
identical dimensions with identical composite operations. -/
theorem singleBatch_refines_unbatched (tlx brx tly bry : Int)
    (hx : tlx ≤ brx) (hy : tly ≤ bry)
    (hw : (brx - tlx + 1).toNat ≤ 16) (hh : (bry - tly + 1).toNat ≤ 16) :
    Batched.numBatchesOnAxis (Batched.fullTileCoords tlx brx).length = 1 ∧
    Batched.numBatchesOnAxis (Batched.fullTileCoords tly bry).length = 1 ∧
    Batched.batchOrder 1 1 = [(0, 0)] ∧
    Batched.batchSlice (Batched.fullTileCoords tlx brx) 0 = Batched.fullTileCoords tlx brx ∧
    Batched.batchSlice (Batched.fullTileCoords tly bry) 0 = Batched.fullTileCoords tly bry ∧
    Batched.frameWidth (Batched.batchSlice (Batched.fullTileCoords tlx brx) 0)
      = Lib.frameWidth (Batched.fullTileCoords tlx brx) ∧
    Batched.frameHeight (Batched.batchSlice (Batched.fullTileCoords tly bry) 0)
      = Lib.frameHeight (Batched.fullTileCoords tly bry) ∧
    Batched.compositeOperations (Batched.batchSlice (Batched.fullTileCoords tlx brx) 0)
        (Batched.batchSlice (Batched.fullTileCoords tly bry) 0)
      = Lib.compositeOperations (Batched.fullTileCoords tlx brx)
          (Batched.fullTileCoords tly bry) := by
  have hlenx : (Batched.fullTileCoords tlx brx).length = (brx - tlx + 1).toNat := by
    simp [Batched.fullTileCoords]
  have hleny : (Batched.fullTileCoords tly bry).length = (bry - tly + 1).toNat := by
    simp [Batched.fullTileCoords]
  have hslicex : Batched.batchSlice (Batched.fullTileCoords tlx brx) 0
      = Batched.fullTileCoords tlx brx := by
    rw [Batched.batchSlice, Nat.zero_mul, List.drop_zero]
    apply List.take_of_length_le
    rw [hlenx, Batched.BATCH_GRID_DIMENSION]
    exact hw
  have hslicey : Batched.batchSlice (Batched.fullTileCoords tly bry) 0
      = Batched.fullTileCoords tly bry := by
    rw [Batched.batchSlice, Nat.zero_mul, List.drop_zero]
    apply List.take_of_length_le
    rw [hleny, Batched.BATCH_GRID_DIMENSION]
    exact hh
  refine ⟨?_, ?_, by decide, hslicex, hslicey, by rw [hslicex]; rfl, by rw [hslicey]; rfl,
    by rw [hslicex, hslicey]; rfl⟩
  · rw [hlenx]
    simp only [Batched.numBatchesOnAxis, Batched.BATCH_GRID_DIMENSION]
    omega
  · rw [hleny]
    simp only [Batched.numBatchesOnAxis, Batched.BATCH_GRID_DIMENSION]
    omega

/-- Witness for C10 on the 3×4-tile rectangle x ∈ [10, 12], y ∈ [-3, 0]. -/
theorem singleBatch_refines_unbatched_witness :
    Batched.numBatchesOnAxis (Batched.fullTileCoords 10 12).length = 1 ∧
    Batched.compositeOperations (Batched.batchSlice (Batched.fullTileCoords 10 12) 0)
        (Batched.batchSlice (Batched.fullTileCoords (-3) 0) 0)
      = Lib.compositeOperations (Batched.fullTileCoords 10 12)
          (Batched.fullTileCoords (-3) 0) := by
  obtain ⟨h1, -, -, -, -, -, -, h8⟩ :=
    singleBatch_refines_unbatched 10 12 (-3) 0 (by decide) (by decide) (by decide) (by decide)
  exact ⟨h1, h8⟩

/-- C5 counterexample: `lonLatToTile` performs no clamping. For the
out-of-range longitude 540° at zoom 1 it returns tile x = 4, violating
0 ≤ x < 2^1 = 2. -/
theorem lonLatToTile_no_clamp :
    (lonLatToTile 540 0 1).1 = 4 ∧ ¬((lonLatToTile 540 0 1).1 < 2 ^ 1) := by
  have hx : (lonLatToTile 540 0 1).1 = 4 := by
    show ⌊(2:ℝ) ^ (1:ℕ) * ((540 + 180) / 360)⌋ = 4
    rw [show (2:ℝ) ^ (1:ℕ) * ((540 + 180) / 360) = ((4:ℤ) : ℝ) by norm_num]
    exact Int.floor_intCast 4
  refine ⟨hx, ?_⟩
  rw [hx]
  decide

/-- C5 amended: `lonLatToTile` does not clamp degenerate or out-of-range
inputs; the bounds 0 ≤ x, y < 2^zoom hold exactly for longitudes in
[−180, 180) and latitudes inside the Web-Mercator-projectable band, i.e.
those whose Mercator ordinate ln(tan φ + sec φ) lies in (−π, π]
(equivalently |lat| ≲ 85.051°). -/
theorem lonLatToTile_in_range (lon lat : ℝ) (zoom : ℕ)
    (h1 : -180 ≤ lon) (h2 : lon < 180)
    (h3 : -Real.pi
      < Real.log (Real.tan (lat * Real.pi / 180) + 1 / Real.cos (lat * Real.pi / 180)))
    (h4 : Real.log (Real.tan (lat * Real.pi / 180) + 1 / Real.cos (lat * Real.pi / 180))
      ≤ Real.pi) :
    0 ≤ (lonLatToTile lon lat zoom).1 ∧ (lonLatToTile lon lat zoom).1 < 2 ^ zoom ∧
    0 ≤ (lonLatToTile lon lat zoom).2 ∧ (lonLatToTile lon lat zoom).2 < 2 ^ zoom := by
  have hpi : (0:ℝ) < Real.pi := Real.pi_pos
  have hn : (0:ℝ) < 2 ^ zoom := by positivity
  have ht0 : (0:ℝ) ≤ (lon + 180) / 360 := by
    apply div_nonneg <;> linarith
  have ht1 : (lon + 180) / 360 < 1 := by
    rw [div_lt_one (by norm_num : (0:ℝ) < 360)]
    linarith
  have hdivle : Real.log (Real.tan (lat * Real.pi / 180) + 1 / Real.cos (lat * Real.pi / 180))
      / Real.pi ≤ 1 := (div_le_one hpi).2 h4
  have hdivgt : (-1 : ℝ)
      < Real.log (Real.tan (lat * Real.pi / 180) + 1 / Real.cos (lat * Real.pi / 180))
        / Real.pi := by
    rw [lt_div_iff₀ hpi]
    linarith
  have hu0 : (0:ℝ) ≤ 1
      - Real.log (Real.tan (lat * Real.pi / 180) + 1 / Real.cos (lat * Real.pi / 180))
        / Real.pi := by linarith
  have hu2 : (1:ℝ)
      - Real.log (Real.tan (lat * Real.pi / 180) + 1 / Real.cos (lat * Real.pi / 180))
        / Real.pi < 2 := by linarith
  refine ⟨?_, ?_, ?_, ?_⟩
  · show 0 ≤ ⌊(2:ℝ) ^ zoom * ((lon + 180) / 360)⌋
    exact Int.floor_nonneg.2 (mul_nonneg hn.le ht0)
  · show ⌊(2:ℝ) ^ zoom * ((lon + 180) / 360)⌋ < 2 ^ zoom
    rw [Int.floor_lt]
    push_cast
    calc (2:ℝ) ^ zoom * ((lon + 180) / 360) < 2 ^ zoom * 1 :=
          mul_lt_mul_of_pos_left ht1 hn
      _ = 2 ^ zoom := mul_one _
  · show 0 ≤ ⌊(2:ℝ) ^ zoom
      * (1 - Real.log (Real.tan (lat * Real.pi / 180) + 1 / Real.cos (lat * Real.pi / 180))
          / Real.pi) / 2⌋
    exact Int.floor_nonneg.2 (div_nonneg (mul_nonneg hn.le hu0) (by norm_num))
  · show ⌊(2:ℝ) ^ zoom
      * (1 - Real.log (Real.tan (lat * Real.pi / 180) + 1 / Real.cos (lat * Real.pi / 180))
          / Real.pi) / 2⌋ < 2 ^ zoom
    rw [Int.floor_lt]
    push_cast
    have hmul : (2:ℝ) ^ zoom
        * (1 - Real.log (Real.tan (lat * Real.pi / 180)
            + 1 / Real.cos (lat * Real.pi / 180)) / Real.pi)
        < 2 ^ zoom * 2 := mul_lt_mul_of_pos_left hu2 hn
    linarith

/-- Witness for the amended C5 at (lon, lat, zoom) = (0°, 0°, 1). -/
theorem lonLatToTile_in_range_witness :
    0 ≤ (lonLatToTile 0 0 1).1 ∧ (lonLatToTile 0 0 1).1 < 2 ^ 1 ∧
    0 ≤ (lonLatToTile 0 0 1).2 ∧ (lonLatToTile 0 0 1).2 < 2 ^ 1 :=
  lonLatToTile_in_range 0 0 1 (by norm_num) (by norm_num)
    (by
      rw [show (0:ℝ) * Real.pi / 180 = 0 by ring, Real.tan_zero, Real.cos_zero]
      norm_num [Real.log_one]
      linarith [Real.pi_pos])
    (by
      rw [show (0:ℝ) * Real.pi / 180 = 0 by ring, Real.tan_zero, Real.cos_zero]
      norm_num [Real.log_one]
      linarith [Real.pi_pos])

end Terraview
